import Mathlib

/-!
Shallow embedding of the LLPC cache / lookup / ELF-merge orchestration layer
(`llpcCompiler.cpp`), covering:

* the per-stage shader-cache gate in `Compiler::BuildPipelineInternal`;
* `GraphicsShaderCacheChecker::Check` and `UpdateAndMerge`;
* `Compiler::MergeElfBinary` (machine-code section merge and symbol rewriting);
* `Compiler::GenerateHashForCompileOptions`;
* `Compiler::LookUpShaderCache` / `LookUpShaderCaches` / `UpdateShaderCache`;
* the output-allocation stages of `BuildShaderModule`, `BuildGraphicsPipeline`
  and `BuildComputePipeline`.

Machine integers are modelled as `Nat` with explicit masking where the width
matters (`stageMask` is a `uint32_t`; ELF symbol values are `size_t`, i.e.
64-bit).  The source has two compile-time variants selected by
`LLPC_CLIENT_INTERFACE_MAJOR_VERSION < 38`; functions that differ between the
two take a `legacy : Bool` parameter (`legacy = true` is the `< 38` path).
-/

namespace Llpc

/-- Shader stages, as the indices used by `ShaderStageToMask` (`1 << stage`).
The graphics stages, in the order of the `shaderInfo` array in
`BuildGraphicsPipeline`, are vertex, tessControl, tessEval, geometry,
fragment. -/
def shaderStageVertex : Nat := 0

/-- Fragment stage index (fifth graphics stage). -/
def shaderStageFragment : Nat := 4

/-- Mask of a stage, `ShaderStageToMask`: `1 << stage`. -/
def shaderStageToMask (stage : Nat) : Nat := 2 ^ stage

/-- The 32-bit complement of the fragment-stage mask, as computed by
`stageMask & ~ShaderStageToMask(ShaderStageFragment)` on a `uint32_t`. -/
def notFragmentMask32 : Nat := 0xFFFFFFFF ^^^ shaderStageToMask shaderStageFragment

/-- State of a cache entry, `ShaderEntryState`, from the shader-cache interface: `New` (never seen),
`Compiling` (claimed, result pending), `Ready` (result stored). -/
inductive ShaderEntryState where
  | new
  | compiling
  | ready
deriving DecidableEq, Repr

/-- Result codes (`Result`) used by the functions modelled here. -/
inductive ResultCode where
  | success
  | errorInvalidPointer
  | errorInvalidShader
  | errorOutOfMemory
  | errorUnknown
  | unsupported
deriving DecidableEq, Repr

/-! ## Per-stage cache gate (`Compiler::BuildPipelineInternal`) -/

/-- The gate computed in `BuildPipelineInternal`:
`cl::EnablePerStageCache && pContext->IsGraphics() &&
 (pContext->GetShaderStageMask() &
  (ShaderStageToMask(ShaderStageVertex) | ShaderStageToMask(ShaderStageFragment)))`.
When this is false the `checkShaderCacheFunc` callback is set to null and only
the whole-pipeline key is used. -/
def checkPerStageCache (enablePerStageCache isGraphics : Bool) (stageMask : Nat) : Bool :=
  enablePerStageCache && isGraphics &&
    decide ((stageMask &&& (shaderStageToMask shaderStageVertex |||
                            shaderStageToMask shaderStageFragment)) ≠ 0)

/-! ## Global-constant user scan and `GraphicsShaderCacheChecker::Check` -/

/-- A user of an LLVM value, as visited by the worklist scan in
`GraphicsShaderCacheChecker::Check`: either a `Constant` user (whose own users
are scanned transitively) or an `Instruction` user inside a function whose
shader stage is `stage`. -/
inductive LlvmUser where
  | constUser (users : List LlvmUser)
  | instUser (stage : Nat)

/-- A module-level global, as seen by the scan: a `GlobalVariable` with its
`isConstant` flag and its users. -/
structure LlvmGlobal where
  isConstant : Bool
  users : List LlvmUser

/-- A pipeline module, reduced to the data the scan inspects. -/
abbrev LlvmModule := List LlvmGlobal

/-- The worklist of `Check` reaches, transitively through `Constant` users, an
`Instruction` user whose function's shader stage is not `ShaderStageFragment`.
This is the condition under which `Check` returns the full stage mask. -/
def usersReachNonFragment : List LlvmUser → Bool
  | [] => false
  | LlvmUser.instUser stage :: rest =>
      decide (stage ≠ shaderStageFragment) || usersReachNonFragment rest
  | LlvmUser.constUser us :: rest =>
      usersReachNonFragment us || usersReachNonFragment rest

/-- The loop over `pModule->globals()` in `Check`: some global constant
variable has a (transitively reached) non-fragment instruction user. -/
def moduleHasNonFragmentConstUser (m : LlvmModule) : Bool :=
  m.any fun g => g.isConstant && usersReachNonFragment g.users

/-- Observable outcome of `GraphicsShaderCacheChecker::Check`: the two
member-variable entry states after the call, whether each per-stage cache
lookup was performed, and the returned stage mask. -/
structure CheckOutcome where
  fragmentState : ShaderEntryState
  nonFragmentState : ShaderEntryState
  fragmentLookupDone : Bool
  nonFragmentLookupDone : Bool
  returnedMask : Nat
deriving DecidableEq, Repr

/-- Model of `GraphicsShaderCacheChecker::Check`.  Member states start at `New` (the
`ShaderEntryState` start state).  `fragmentLookup` / `nonFragmentLookup` are
the states the respective shader-cache lookups would return.  `legacy` selects
the `LLPC_CLIENT_INTERFACE_MAJOR_VERSION < 38` branch; in the `>= 38` branch
the source assigns the non-fragment lookup's result to
`m_fragmentCacheEntryState` (line 1291), not to `m_nonFragmentCacheEntryState`,
and this model reproduces that assignment. -/
def graphicsCheck (legacy : Bool) (m : LlvmModule) (stageMask : Nat)
    (fragmentLookup nonFragmentLookup : ShaderEntryState) : CheckOutcome :=
  if moduleHasNonFragmentConstUser m then
    { fragmentState := ShaderEntryState.new
      nonFragmentState := ShaderEntryState.new
      fragmentLookupDone := false
      nonFragmentLookupDone := false
      returnedMask := stageMask }
  else
    let doFragment := (stageMask &&& shaderStageToMask shaderStageFragment) ≠ 0
    let doNonFragment := (stageMask &&& notFragmentMask32) ≠ 0
    let fragState :=
      if doFragment then fragmentLookup else ShaderEntryState.new
    let fragState' :=
      if doNonFragment ∧ ¬ legacy then nonFragmentLookup else fragState
    let nonFragState :=
      if doNonFragment ∧ legacy then nonFragmentLookup else ShaderEntryState.new
    let mask1 :=
      if nonFragState ≠ ShaderEntryState.compiling then
        stageMask &&& shaderStageToMask shaderStageFragment
      else stageMask
    let mask2 :=
      if fragState' ≠ ShaderEntryState.compiling then mask1 &&& notFragmentMask32
      else mask1
    { fragmentState := fragState'
      nonFragmentState := nonFragState
      fragmentLookupDone := decide doFragment
      nonFragmentLookupDone := decide doNonFragment
      returnedMask := mask2 }

/-- Which merge `GraphicsShaderCacheChecker::UpdateAndMerge` performs, per its
four branches, and which sources the merge combines. -/
inductive MergeSources where
  /-- fragment entry `Ready`, non-fragment `Compiling`: cached fragment ELF
  merged with the newly compiled non-fragment ELF. -/
  | compiledWithCachedFragment
  /-- non-fragment entry `Ready`, fragment `Compiling`: newly compiled
  fragment ELF merged with the cached non-fragment ELF. -/
  | compiledWithCachedNonFragment
  /-- both entries `Ready`: the two cached ELFs merged. -/
  | bothCached
  /-- any other state combination: no merge (whole-pipeline branch, or a
  failed compile). -/
  | noMerge
deriving DecidableEq, Repr

/-- The branch structure of `UpdateAndMerge`: which merge (if any) is invoked,
given the compile `result` and the two recorded entry states.  In the first
two branches `MergeElfBinary` only runs when `result == Result::Success`. -/
def updateAndMergeAction (result : ResultCode)
    (fragmentState nonFragmentState : ShaderEntryState) : MergeSources :=
  if fragmentState = ShaderEntryState.ready ∧
     nonFragmentState = ShaderEntryState.compiling then
    if result = ResultCode.success then MergeSources.compiledWithCachedFragment
    else MergeSources.noMerge
  else if nonFragmentState = ShaderEntryState.ready ∧
          fragmentState = ShaderEntryState.compiling then
    if result = ResultCode.success then MergeSources.compiledWithCachedNonFragment
    else MergeSources.noMerge
  else if fragmentState = ShaderEntryState.ready ∧
          nonFragmentState = ShaderEntryState.ready then
    MergeSources.bothCached
  else MergeSources.noMerge

/-! ## `Compiler::MergeElfBinary` — machine-code merge and symbol rewriting -/

/-- Constant `InvalidValue`, the cleared section index written into displaced
non-fragment symbols. -/
def invalidSecIdx : Int := -1

/-- An ELF symbol as handled by `MergeElfBinary`: name, section index,
value (offset) and size.  Values and sizes are `size_t` (64-bit). -/
structure ElfSymbol where
  symName : String
  secIdx : Int
  value : Nat
  size : Nat
deriving DecidableEq, Repr

/-- The fragment-shader main entry symbol name
(`Util::Abi::PipelineAbiSymbolNameStrings[PsMainEntry]`; the source's comments
call it `_amdgpu_ps_main`). -/
def fragmentIsaSymbolName : String := "_amdgpu_ps_main"

/-- Alignment helper `Pow2Align(x, align)`: round `x` up to a multiple of `align`. -/
def pow2Align (x align : Nat) : Nat := ((x + align - 1) / align) * align

/-- The modulus of `size_t` arithmetic, 2^64. -/
def twoPow64 : Nat := 2 ^ 64

/-- The value written for a re-emitted fragment symbol:
`isaOffset + fragmentSymbol.value - pFragmentIsaSymbol->value`,
evaluated in `size_t` (mod-2^64) arithmetic. -/
def mergedSymbolValue (isaOffset symValue entryValue : Nat) : Nat :=
  (isaOffset + symValue + (twoPow64 - entryValue % twoPow64)) % twoPow64

/-- The first loop of `MergeElfBinary` over the non-fragment text symbols:
each iteration first updates `pNonFragmentIsaSymbol` if the symbol's name is
the fragment entry name, and then, once that pointer is set, clears the
symbol's section index (`pSymbol->secIdx = InvalidValue`).  Returns the
rewritten symbol list together with the final `pNonFragmentIsaSymbol`. -/
def invalidateSymbols :
    Option ElfSymbol → List ElfSymbol → List ElfSymbol × Option ElfSymbol
  | entry, [] => ([], entry)
  | entry, s :: rest =>
      let entry' := if s.symName = fragmentIsaSymbolName then some s else entry
      let s' := if entry'.isSome then { s with secIdx := invalidSecIdx } else s
      let (rest', entryFinal) := invalidateSymbols entry' rest
      (s' :: rest', entryFinal)

/-- A write into the writer's symbol table
(`writer.GetSymbol(name)` followed by field assignments). -/
structure SymbolWrite where
  symName : String
  secIdx : Int
  value : Nat
  size : Nat
deriving DecidableEq, Repr

/-- The second loop of `MergeElfBinary` over the fragment text symbols: an
iteration whose symbol is named `fragmentIsaSymbolName` sets
`pFragmentIsaSymbol` (and triggers the text-section `MergeSection`); from then
on every symbol is re-emitted against the merged section with
`value = isaOffset + fragmentSymbol.value - pFragmentIsaSymbol->value` and the
fragment symbol's size.  Iterations before the entry symbol is found
(`pFragmentIsaSymbol == nullptr`) perform no write. -/
def emitFragmentSymbols (isaOffset : Nat) (nonFragmentSecIdx : Int) :
    Option Nat → List ElfSymbol → List SymbolWrite
  | _, [] => []
  | entryValue, s :: rest =>
      let entryValue' :=
        if s.symName = fragmentIsaSymbolName then some s.value else entryValue
      match entryValue' with
      | none => emitFragmentSymbols isaOffset nonFragmentSecIdx none rest
      | some e =>
          { symName := s.symName
            secIdx := nonFragmentSecIdx
            value := mergedSymbolValue isaOffset s.value e
            size := s.size } ::
          emitFragmentSymbols isaOffset nonFragmentSecIdx entryValue' rest

/-- The inputs of `MergeElfBinary` relevant to the machine-code merge: the
non-fragment text section size, the writer's text section index, and the two
text-section symbol lists. -/
structure MergeInput where
  nonFragmentTextSize : Nat
  nonFragmentSecIdx : Int
  nonFragmentSymbols : List ElfSymbol
  fragmentSymbols : List ElfSymbol
deriving DecidableEq, Repr

/-- Observable outcome of the machine-code part of `MergeElfBinary`.
`outputWritten` records that the final `writer.WriteToBuffer(pPipelineElf)`
runs: the source function returns `void`, has no error result, and reaches the
serialization unconditionally. -/
structure MergeOutput where
  nonFragmentSymbolsAfter : List ElfSymbol
  isaOffset : Nat
  fragmentWrites : List SymbolWrite
  textMerged : Bool
  outputWritten : Bool
deriving DecidableEq, Repr

/-- Model of `Compiler::MergeElfBinary`, machine-code section merge and symbol-table
rewriting.  `isaOffset` (the fragment code insertion point) is the
non-fragment text size aligned to 0x100 when no fragment-entry placeholder
symbol exists in the non-fragment image, else that symbol's value.
`textMerged` records whether the text-section `MergeSection` call happened
(it happens inside the fragment loop iteration that finds the entry
symbol). -/
def mergeElfBinary (inp : MergeInput) : MergeOutput :=
  let (nfSyms, nfEntry) := invalidateSymbols none inp.nonFragmentSymbols
  let off :=
    match nfEntry with
    | none => pow2Align inp.nonFragmentTextSize 0x100
    | some s => s.value
  { nonFragmentSymbolsAfter := nfSyms
    isaOffset := off
    fragmentWrites := emitFragmentSymbols off inp.nonFragmentSecIdx none inp.fragmentSymbols
    textMerged := inp.fragmentSymbols.any (fun s => s.symName = fragmentIsaSymbolName)
    outputWritten := true }

/-! ## `Compiler::GenerateHashForCompileOptions` -/

/-- The fixed `IgnoredOptions` denylist.  The first six and the last two
spellings are the `ArgStr`s of the options declared in `llpcCompiler.cpp`;
`enable-outs`, `enable-errs`, `log-file-dbgs` and `log-file-outs` belong to
the four options declared `extern` there (their exact spellings are immaterial
to the theorems below). -/
def ignoredOptions : List String :=
  ["pipeline-dump-dir", "enable-pipeline-dump", "shader-cache-file-dir",
   "shader-cache-mode", "enable-outs", "enable-errs", "log-file-dbgs",
   "log-file-outs", "enable-shadow-desc", "shadow-desc-table-ptr-high"]

/-- Test `option.startswith(IgnoredOptions[j])` for some denylist entry
(`StringRef::startswith` is a byte-prefix test, modelled on the character
lists of the strings). -/
def isIgnoredOption (option : String) : Bool :=
  ignoredOptions.any fun ig => ig.data.isPrefixOf option.data

/-- The `std::set<StringRef> effectingOptions` built by
`GenerateHashForCompileOptions`: every option except the first, with its
leading `-` skipped (`pOptions[i] + 1`), kept unless it starts with a denylist
entry, inserted into a set (deduplicated). -/
def effectingOptions (options : List String) : Finset String :=
  (((options.drop 1).map fun o => o.drop 1).filter
    fun o => ¬ isIgnoredOption o).toFinset

/-- The exact byte stream fed to the `MetroHash64` hasher: the effecting
options in the sorted order of `std::set` iteration, concatenated (each
`hasher.Update` appends the option's bytes). -/
def optionHashStream (options : List String) : String :=
  String.join ((effectingOptions options).sort (· ≤ ·))

/-- Model of `Compiler::GenerateHashForCompileOptions`, with the `MetroHash64`
finalization abstracted as a function `h` of the byte stream it consumed
(MetroHash is a deterministic function of that stream). -/
def generateHashForCompileOptions {α : Type} (h : String → α)
    (options : List String) : α :=
  h (optionHashStream options)

/-! ## Shader-cache lookups -/

/-- Outcome of `Compiler::LookUpShaderCache` (`>= 38` path): the returned
`ShaderEntryState`, the entry handle left in `*phEntry`, the retrieved binary
left in `*pElfBin`, and the final value of the local `result` variable (which
the function does not return or surface anywhere). -/
structure LookupOutput where
  state : ShaderEntryState
  entry : Option Nat
  elf : Option Nat
  resultVar : ResultCode
deriving DecidableEq, Repr

/-- Model of `Compiler::LookUpShaderCache`: `FindShader(hash, true, phEntry)` yields
`findState` and handle `findEntry`; when the state is `Ready`,
`RetrieveShader` yields `retrieveResult` and data `retrieveElf`.  On
`ErrorUnknown` from retrieval the entry handle is cleared, the state is
demoted to `Compiling`, and `result` is set back to `Success`. -/
def lookUpShaderCache (findState : ShaderEntryState) (findEntry : Option Nat)
    (retrieveResult : ResultCode) (retrieveElf : Nat) : LookupOutput :=
  if findState = ShaderEntryState.ready then
    if retrieveResult = ResultCode.errorUnknown then
      { state := ShaderEntryState.compiling
        entry := none
        elf := none
        resultVar := ResultCode.success }
    else
      { state := ShaderEntryState.ready
        entry := findEntry
        elf := some retrieveElf
        resultVar := retrieveResult }
  else
    { state := findState
      entry := findEntry
      elf := none
      resultVar := ResultCode.success }

/-- One shader cache as seen by `LookUpShaderCaches` (`< 38` path): the state
and handle its `FindShader(hash, true, ...)` returns, and the result and data
its `RetrieveShader` returns. -/
structure CacheSim where
  findState : ShaderEntryState
  findEntry : Option Nat
  retrieveResult : ResultCode
  retrieveElf : Nat
deriving DecidableEq, Repr

/-- Identity of a cache in the two-element `ppShaderCache` array. -/
inductive CacheId where
  | app
  | internal
deriving DecidableEq, Repr

/-- Outcome of `Compiler::LookUpShaderCaches`: final state, retrieved binary,
the caches queried in order, and the binary written back into the first
cache's claimed entry (the `InsertShader` on `phEntry[0]` performed when the
internal cache hits after an app-cache miss). -/
structure LookupCachesOutput where
  state : ShaderEntryState
  elf : Option Nat
  queried : List CacheId
  writeBack : Option Nat
deriving DecidableEq, Repr

/-- The `for (i = 0; i < shaderCacheCount; i++)` loop of `LookUpShaderCaches`.
`i` is the loop index, `entry0` the current `phEntry[0]`, `st` the running
`cacheEntryState`.  A `Ready` find retrieves; `ErrorUnknown` demotes to
`Compiling`, clears `phEntry[i]` and continues; any other retrieval result
breaks, inserting the binary into cache 0's claimed entry when `i == 1` and
`phEntry[0] != nullptr`. -/
def lookupCachesLoop :
    List (CacheId × CacheSim) → Nat → Option Nat → List CacheId →
    ShaderEntryState → LookupCachesOutput
  | [], _, _, queried, st =>
      { state := st, elf := none, queried := queried, writeBack := none }
  | (cid, c) :: rest, i, entry0, queried, _ =>
      let entry0' := if i = 0 then c.findEntry else entry0
      let queried' := queried ++ [cid]
      if c.findState = ShaderEntryState.ready then
        if c.retrieveResult = ResultCode.errorUnknown then
          lookupCachesLoop rest (i + 1) (if i = 0 then none else entry0')
            queried' ShaderEntryState.compiling
        else
          { state := ShaderEntryState.ready
            elf := some c.retrieveElf
            queried := queried'
            writeBack :=
              if i = 1 ∧ entry0'.isSome then some c.retrieveElf else none }
      else
        lookupCachesLoop rest (i + 1) entry0' queried' c.findState

/-- Model of `Compiler::LookUpShaderCaches` (`< 38` path).  The `ppShaderCache` array
holds the app cache first and the internal cache second when an app cache is
supplied; `cl::ShaderCacheMode == ShaderCacheForceInternalCacheOnDisk`
overrides the array to the internal cache alone. -/
def lookUpShaderCaches (appCache : Option CacheSim) (internalCache : CacheSim)
    (forceInternalCacheOnDisk : Bool) : LookupCachesOutput :=
  let caches : List (CacheId × CacheSim) :=
    if forceInternalCacheOnDisk then [(CacheId.internal, internalCache)]
    else
      match appCache with
      | some app => [(CacheId.app, app), (CacheId.internal, internalCache)]
      | none => [(CacheId.internal, internalCache)]
  lookupCachesLoop caches 0 none [] ShaderEntryState.new

/-! ## Top-level build calls: result flow and output allocation

The models below abstract the stages before output allocation into result
parameters (`validateResult` for `ValidatePipelineShaderInfo`, `compileResult`
for the internal build, `phaseResult` for the optional shader-module
translate/lower phase), and reproduce the control flow around the caches and
the caller-supplied output allocator exactly.  The allocator is
`Option (Option Nat)`: `none` models a null `pfnOutputAlloc` callback, and
`some d` a present callback returning buffer `d` (`d = none` is a null
buffer, i.e. allocation failure). -/

/-- Outcome of a top-level pipeline build call.  `copyDest = some d` records
that the `memcpy` into the output buffer executed with destination `d`
(`d = none` is a null destination); `copyDest = none` means no copy ran. -/
structure PipelineBuildOutcome where
  result : ResultCode
  copyDest : Option (Option Nat)
  cacheInserted : Bool
  cacheReset : Bool
deriving DecidableEq, Repr

/-- Model of `Compiler::BuildGraphicsPipeline` (single-handle, `>= 38` path) from the
whole-pipeline cache lookup on: when the lookup says `Compiling` the internal
build runs and `UpdateShaderCache` inserts on success / resets on failure;
then, when the running result is `Success`, the output stage allocates via the
caller's callback.  The source checks only whether the callback pointer is
null (`ErrorInvalidPointer`); it performs the `memcpy` unconditionally
afterwards, without testing the returned buffer for null. -/
def buildGraphicsPipeline (validateResult : ResultCode)
    (lookupState : ShaderEntryState) (compileResult : ResultCode)
    (allocCallback : Option (Option Nat)) : PipelineBuildOutcome :=
  let compiling := lookupState = ShaderEntryState.compiling
  let r1 := if compiling then compileResult else validateResult
  let inserted := compiling ∧ compileResult = ResultCode.success
  let reset := compiling ∧ compileResult ≠ ResultCode.success
  if r1 = ResultCode.success then
    match allocCallback with
    | some allocResult =>
        { result := ResultCode.success
          copyDest := some allocResult
          cacheInserted := inserted
          cacheReset := reset }
    | none =>
        { result := ResultCode.errorInvalidPointer
          copyDest := some none
          cacheInserted := inserted
          cacheReset := reset }
  else
    { result := r1
      copyDest := none
      cacheInserted := inserted
      cacheReset := reset }

/-- Model of `Compiler::BuildComputePipeline` (single-handle, `>= 38` path), same
shape as the graphics build except that the output stage checks the buffer
returned by the callback: a null buffer yields `ErrorOutOfMemory` and no
copy. -/
def buildComputePipeline (validateResult : ResultCode)
    (lookupState : ShaderEntryState) (compileResult : ResultCode)
    (allocCallback : Option (Option Nat)) : PipelineBuildOutcome :=
  let compiling := lookupState = ShaderEntryState.compiling
  let r1 := if compiling then compileResult else validateResult
  let inserted := compiling ∧ compileResult = ResultCode.success
  let reset := compiling ∧ compileResult ≠ ResultCode.success
  if r1 = ResultCode.success then
    match allocCallback with
    | some (some buf) =>
        { result := ResultCode.success
          copyDest := some (some buf)
          cacheInserted := inserted
          cacheReset := reset }
    | some none =>
        { result := ResultCode.errorOutOfMemory
          copyDest := none
          cacheInserted := inserted
          cacheReset := reset }
    | none =>
        { result := ResultCode.errorInvalidPointer
          copyDest := none
          cacheInserted := inserted
          cacheReset := reset }
  else
    { result := r1
      copyDest := none
      cacheInserted := inserted
      cacheReset := reset }

/-- Kind of the input shader binary in `Compiler::BuildShaderModule`. -/
inductive ShaderBinKind where
  | spirv
  | llvmBc
  | unknown
deriving DecidableEq, Repr

/-- Outcome of `Compiler::BuildShaderModule`. -/
structure BuildShaderModuleOutcome where
  result : ResultCode
  artifactProduced : Bool
  cacheInserted : Bool
  cacheReset : Bool
deriving DecidableEq, Repr

/-- Model of `Compiler::BuildShaderModule`.  Input checks: an unrecognized
binary is `ErrorInvalidShader`; SPIR-V failing `VerifySpirvBinary` is
`Unsupported`.  The SPIR-V block (`if (moduleData.binType == Spirv)`) runs
whenever the binary is SPIR-V, regardless of the running result; under
`enableOpt` it looks up the per-module cache (`cacheEntryState`, `hEntry`)
and then *overwrites* the running result unconditionally — on a `Ready`
entry with `RetrieveShader`'s result (`retrieveResult`), otherwise with the
combined `CreateBuilder` + translate/lower result (`phaseResult`) — so an
earlier `Unsupported` can be clobbered (when verification failed no entry
names were collected, so the translate loop itself is a no-op).  The output
stage requires a non-null `pfnOutputAlloc` (`ErrorInvalidPointer` otherwise)
and a non-null returned buffer (`ErrorOutOfMemory` otherwise); on any failed
result a held entry handle is reset (`ResetShader`). -/
def buildShaderModule (binKind : ShaderBinKind) (spirvVerifyOk : Bool)
    (enableOpt : Bool) (cacheEntryState : ShaderEntryState)
    (hEntry : Option Nat) (retrieveResult phaseResult : ResultCode)
    (allocCallback : Option (Option Nat)) : BuildShaderModuleOutcome :=
  let r0 :=
    match binKind with
    | ShaderBinKind.spirv =>
        if spirvVerifyOk then ResultCode.success else ResultCode.unsupported
    | ShaderBinKind.llvmBc => ResultCode.success
    | ShaderBinKind.unknown => ResultCode.errorInvalidShader
  let r1 :=
    if binKind = ShaderBinKind.spirv ∧ enableOpt then
      if cacheEntryState = ShaderEntryState.ready then retrieveResult
      else phaseResult
    else r0
  let r2 :=
    if r1 = ResultCode.success then
      match allocCallback with
      | some (some _) => ResultCode.success
      | some none => ResultCode.errorOutOfMemory
      | none => ResultCode.errorInvalidPointer
    else r1
  { result := r2
    artifactProduced := r2 = ResultCode.success
    cacheInserted :=
      r2 = ResultCode.success ∧ cacheEntryState = ShaderEntryState.compiling ∧
        hEntry.isSome
    cacheReset := r2 ≠ ResultCode.success ∧ hEntry.isSome }

/-! ## Helper lemmas -/

theorem land_ne_zero_iff (m x : Nat) :
    m &&& x ≠ 0 ↔ ∃ i, m.testBit i = true ∧ x.testBit i = true := by
  constructor
  · intro h
    obtain ⟨i, hi⟩ := Nat.ne_zero_implies_bit_true h
    rw [Nat.testBit_and, Bool.and_eq_true] at hi
    exact ⟨i, hi⟩
  · rintro ⟨i, h1, h2⟩ h0
    have hbit : (m &&& x).testBit i = false := by rw [h0]; simp
    rw [Nat.testBit_and, h1, h2] at hbit
    simp at hbit

theorem land_lor_ne_zero (m a b : Nat) :
    m &&& (a ||| b) ≠ 0 ↔ (m &&& a ≠ 0 ∨ m &&& b ≠ 0) := by
  simp only [land_ne_zero_iff, Nat.testBit_or, Bool.or_eq_true]
  constructor
  · rintro ⟨i, h1, h2 | h2⟩
    exacts [Or.inl ⟨i, h1, h2⟩, Or.inr ⟨i, h1, h2⟩]
  · rintro (⟨i, h1, h2⟩ | ⟨i, h1, h2⟩)
    exacts [⟨i, h1, Or.inl h2⟩, ⟨i, h1, Or.inr h2⟩]

theorem invalidateSymbols_cons (entry : Option ElfSymbol) (s : ElfSymbol)
    (rest : List ElfSymbol) :
    invalidateSymbols entry (s :: rest) =
      ((if (if s.symName = fragmentIsaSymbolName then some s else entry).isSome
        then { s with secIdx := invalidSecIdx } else s) ::
         (invalidateSymbols
           (if s.symName = fragmentIsaSymbolName then some s else entry) rest).1,
       (invalidateSymbols
         (if s.symName = fragmentIsaSymbolName then some s else entry) rest).2) := rfl

theorem invalidateSymbols_after (e : ElfSymbol) (rest : List ElfSymbol)
    (h : ∀ s ∈ rest, s.symName ≠ fragmentIsaSymbolName) :
    invalidateSymbols (some e) rest =
      (rest.map fun s => { s with secIdx := invalidSecIdx }, some e) := by
  induction rest with
  | nil => rfl
  | cons s rest ih =>
    have hs := h s (List.mem_cons_self s rest)
    rw [invalidateSymbols_cons]
    simp only [if_neg hs, Option.isSome_some, if_pos,
      ih fun t ht => h t (List.mem_cons_of_mem s ht), List.map_cons]

theorem invalidateSymbols_split (pre : List ElfSymbol) (entry : ElfSymbol)
    (post : List ElfSymbol)
    (hpre : ∀ s ∈ pre, s.symName ≠ fragmentIsaSymbolName)
    (hentry : entry.symName = fragmentIsaSymbolName)
    (hpost : ∀ s ∈ post, s.symName ≠ fragmentIsaSymbolName) :
    invalidateSymbols none (pre ++ entry :: post) =
      (pre ++ { entry with secIdx := invalidSecIdx } ::
         post.map (fun s => { s with secIdx := invalidSecIdx }), some entry) := by
  induction pre with
  | nil =>
    rw [List.nil_append, invalidateSymbols_cons]
    simp only [if_pos hentry, Option.isSome_some, if_pos,
      invalidateSymbols_after entry post hpost, List.nil_append]
  | cons s pre ih =>
    have hs := hpre s (List.mem_cons_self s pre)
    rw [List.cons_append, invalidateSymbols_cons]
    simp only [if_neg hs, Option.isSome_none, Bool.false_eq_true, if_neg,
      ih fun t ht => hpre t (List.mem_cons_of_mem s ht), List.cons_append]
    simp

theorem emitFragmentSymbols_after (off : Nat) (sec : Int) (e : Nat)
    (rest : List ElfSymbol)
    (h : ∀ s ∈ rest, s.symName ≠ fragmentIsaSymbolName) :
    emitFragmentSymbols off sec (some e) rest =
      rest.map fun s =>
        ⟨s.symName, sec, mergedSymbolValue off s.value e, s.size⟩ := by
  induction rest with
  | nil => rfl
  | cons s rest ih =>
    have hs := h s (List.mem_cons_self s rest)
    rw [emitFragmentSymbols]
    simp only [if_neg hs, ih fun t ht => h t (List.mem_cons_of_mem s ht),
      List.map_cons]

theorem emitFragmentSymbols_split (off : Nat) (sec : Int)
    (pre : List ElfSymbol) (entry : ElfSymbol) (post : List ElfSymbol)
    (hpre : ∀ s ∈ pre, s.symName ≠ fragmentIsaSymbolName)
    (hentry : entry.symName = fragmentIsaSymbolName)
    (hpost : ∀ s ∈ post, s.symName ≠ fragmentIsaSymbolName) :
    emitFragmentSymbols off sec none (pre ++ entry :: post) =
      ⟨entry.symName, sec, mergedSymbolValue off entry.value entry.value,
        entry.size⟩ ::
        post.map (fun s =>
          ⟨s.symName, sec, mergedSymbolValue off s.value entry.value,
            s.size⟩) := by
  induction pre with
  | nil =>
    rw [List.nil_append, emitFragmentSymbols]
    simp only [if_pos hentry, emitFragmentSymbols_after off sec entry.value post hpost]
  | cons s pre ih =>
    have hs := hpre s (List.mem_cons_self s pre)
    rw [List.cons_append, emitFragmentSymbols]
    simp only [if_neg hs]
    exact ih fun t ht => hpre t (List.mem_cons_of_mem s ht)

theorem emitFragmentSymbols_none (off : Nat) (sec : Int)
    (l : List ElfSymbol) (h : ∀ s ∈ l, s.symName ≠ fragmentIsaSymbolName) :
    emitFragmentSymbols off sec none l = [] := by
  induction l with
  | nil => rfl
  | cons s rest ih =>
    have hs := h s (List.mem_cons_self s rest)
    rw [emitFragmentSymbols]
    simp only [if_neg hs]
    exact ih fun t ht => h t (List.mem_cons_of_mem s ht)

theorem invalidateSymbols_no_entry (l : List ElfSymbol)
    (h : ∀ s ∈ l, s.symName ≠ fragmentIsaSymbolName) :
    invalidateSymbols none l = (l, none) := by
  induction l with
  | nil => rfl
  | cons s rest ih =>
    have hs := h s (List.mem_cons_self s rest)
    rw [invalidateSymbols_cons]
    simp only [if_neg hs, Option.isSome_none, Bool.false_eq_true, if_neg,
      ih fun t ht => h t (List.mem_cons_of_mem s ht)]
    simp

theorem mergeElfBinary_isaOffset (inp : MergeInput) :
    (mergeElfBinary inp).isaOffset =
      (match (invalidateSymbols none inp.nonFragmentSymbols).2 with
       | none => pow2Align inp.nonFragmentTextSize 0x100
       | some s => s.value) := rfl

theorem mergeElfBinary_nonFragmentSymbolsAfter (inp : MergeInput) :
    (mergeElfBinary inp).nonFragmentSymbolsAfter =
      (invalidateSymbols none inp.nonFragmentSymbols).1 := rfl

theorem mergeElfBinary_fragmentWrites (inp : MergeInput) :
    (mergeElfBinary inp).fragmentWrites =
      emitFragmentSymbols (mergeElfBinary inp).isaOffset inp.nonFragmentSecIdx
        none inp.fragmentSymbols := rfl

theorem mergeElfBinary_textMerged (inp : MergeInput) :
    (mergeElfBinary inp).textMerged =
      inp.fragmentSymbols.any (fun s => s.symName = fragmentIsaSymbolName) := rfl

theorem mergedSymbolValue_no_wrap (off v e : Nat) (h1 : e ≤ v)
    (h2 : e < twoPow64) (h3 : off + (v - e) < twoPow64) :
    mergedSymbolValue off v e = off + (v - e) := by
  have h64 : twoPow64 = 18446744073709551616 := by norm_num [twoPow64]
  unfold mergedSymbolValue
  rw [Nat.mod_eq_of_lt h2]
  have heq : off + v + (twoPow64 - e) = (off + (v - e)) + twoPow64 := by omega
  rw [heq, Nat.add_mod_right, Nat.mod_eq_of_lt h3]

/-! ## Theorems for the claims -/

/-- C1: in a graphics build whose fragment-stage lookup claims a missing entry
(`Compiling`) while the non-fragment lookup finds `Ready` (stage mask
`17 = vertex | fragment`, no blocking global constant), the legacy
(`< 38`) path of `Check` records fragment = `Compiling`, non-fragment =
`Ready`, returns the fragment-only mask `16`, and `UpdateAndMerge` merges the
newly compiled fragment ELF with the cached non-fragment ELF — but the
current (`>= 38`) path stores the non-fragment lookup's `Ready` into the
fragment state field (source line 1291), leaves the non-fragment state `New`,
returns mask `0`, and `UpdateAndMerge` falls into the whole-pipeline branch,
performing no merge. -/
theorem check_fragmentMiss_nonFragmentHit_c1 :
    (graphicsCheck true [] 17 ShaderEntryState.compiling ShaderEntryState.ready =
        ⟨ShaderEntryState.compiling, ShaderEntryState.ready, true, true, 16⟩ ∧
      updateAndMergeAction ResultCode.success
        ShaderEntryState.compiling ShaderEntryState.ready =
        MergeSources.compiledWithCachedNonFragment) ∧
    (graphicsCheck false [] 17 ShaderEntryState.compiling ShaderEntryState.ready =
        ⟨ShaderEntryState.ready, ShaderEntryState.new, true, true, 0⟩ ∧
      updateAndMergeAction ResultCode.success
        ShaderEntryState.ready ShaderEntryState.new =
        MergeSources.noMerge) := by decide

/-- C2 counterexample: the per-stage-cache gate fires for a pipeline whose
stage mask contains only the vertex stage and no fragment stage, so the claim
that the split check is attempted only when the mask includes *both* a vertex
and a fragment stage is false. -/
theorem perStageCacheGate_vertexOnly_c2_counterexample :
    checkPerStageCache true true (shaderStageToMask shaderStageVertex) = true ∧
    shaderStageToMask shaderStageVertex &&& shaderStageToMask shaderStageFragment = 0 := by
  decide

/-- C2 (amended): the per-stage cache check is attempted iff the policy flag
is enabled, the pipeline is graphics, and the active stage mask includes a
vertex stage *or* a fragment stage (the source tests
`stageMask & (VertexMask | FragmentMask)`, a disjunction, not a
conjunction). -/
theorem perStageCacheGate_iff_c2 (e g : Bool) (m : Nat) :
    checkPerStageCache e g m = true ↔
      (e = true ∧ g = true ∧
        (m &&& shaderStageToMask shaderStageVertex ≠ 0 ∨
         m &&& shaderStageToMask shaderStageFragment ≠ 0)) := by
  rw [← land_lor_ne_zero]
  cases e <;> cases g <;>
    simp [checkPerStageCache]

/-- C2 witness: the gate fires for a fragment-only stage mask. -/
theorem perStageCacheGate_iff_c2_witness :
    checkPerStageCache true true (shaderStageToMask shaderStageFragment) = true :=
  (perStageCacheGate_iff_c2 true true (shaderStageToMask shaderStageFragment)).mpr
    ⟨rfl, rfl, Or.inr (by decide)⟩

/-- C3: whenever the module contains a global constant variable with a user —
reached transitively through constant users — that is an instruction in a
non-fragment shader stage, `Check` returns the full input stage mask, performs
neither per-stage cache lookup, and leaves both entry states at their initial
`New`, in both interface-version paths. -/
theorem check_globalConstant_forcesFullCompile_c3 (legacy : Bool)
    (m : LlvmModule) (stageMask : Nat)
    (fragmentLookup nonFragmentLookup : ShaderEntryState)
    (h : moduleHasNonFragmentConstUser m = true) :
    graphicsCheck legacy m stageMask fragmentLookup nonFragmentLookup =
      ⟨ShaderEntryState.new, ShaderEntryState.new, false, false, stageMask⟩ := by
  simp [graphicsCheck, h]

/-- C3 witness: a module with a global constant whose user, reached through a
constant expression, is an instruction in the vertex stage (stage 0). -/
theorem check_globalConstant_forcesFullCompile_c3_witness :
    moduleHasNonFragmentConstUser
        [⟨true, [LlvmUser.constUser [LlvmUser.instUser 0]]⟩] = true ∧
    graphicsCheck false [⟨true, [LlvmUser.constUser [LlvmUser.instUser 0]]⟩] 17
        ShaderEntryState.compiling ShaderEntryState.ready =
      ⟨ShaderEntryState.new, ShaderEntryState.new, false, false, 17⟩ :=
  ⟨by simp [moduleHasNonFragmentConstUser, usersReachNonFragment, shaderStageFragment],
   check_globalConstant_forcesFullCompile_c3 false _ 17 _ _
     (by simp [moduleHasNonFragmentConstUser, usersReachNonFragment, shaderStageFragment])⟩

/-- C7: when `FindShader` reports a `Ready` entry but `RetrieveShader` fails
with `ErrorUnknown`, `LookUpShaderCache` returns state `Compiling` with a
cleared entry handle, and its local `result` is reset to `Success` (the
function surfaces no error to its caller), so the build proceeds to
recompile. -/
theorem lookUpShaderCache_softMiss_c7 (findEntry : Option Nat)
    (retrieveElf : Nat) :
    lookUpShaderCache ShaderEntryState.ready findEntry
        ResultCode.errorUnknown retrieveElf =
      ⟨ShaderEntryState.compiling, none, none, ResultCode.success⟩ := rfl

/-- C9: after a successful compile whose output-buffer allocation fails (the
caller's allocator callback returns null), `BuildComputePipeline` returns
`ErrorOutOfMemory` without copying — but `BuildGraphicsPipeline` leaves its
result `Success` and performs the output `memcpy` with a null destination
(`copyDest = some none`), never reporting `ErrorOutOfMemory`. -/
theorem allocationFailure_outOfMemory_c9 :
    buildComputePipeline ResultCode.success ShaderEntryState.compiling
        ResultCode.success (some none) =
      ⟨ResultCode.errorOutOfMemory, none, true, false⟩ ∧
    buildGraphicsPipeline ResultCode.success ShaderEntryState.compiling
        ResultCode.success (some none) =
      ⟨ResultCode.success, some none, true, false⟩ := by decide

/-- C4 counterexample: a fragment text symbol that precedes the
fragment-entry symbol in the fragment image's symbol table is *not* re-emitted
in the merged image (the loop skips symbols until `pFragmentIsaSymbol` is
found), so "every fragment text symbol is re-emitted" is false as stated. -/
theorem mergeElf_fragmentSymbolSkipped_c4_counterexample :
    (⟨"ps_data", 1, 0, 4⟩ : ElfSymbol) ∈
      (⟨512, 2, [], [⟨"ps_data", 1, 0, 4⟩, ⟨"_amdgpu_ps_main", 1, 16, 8⟩]⟩ :
        MergeInput).fragmentSymbols ∧
    (mergeElfBinary
        ⟨512, 2, [], [⟨"ps_data", 1, 0, 4⟩, ⟨"_amdgpu_ps_main", 1, 16, 8⟩]⟩).fragmentWrites =
      [⟨"_amdgpu_ps_main", 2, 512, 8⟩] := by decide

/-- C4 (amended): in `MergeElfBinary`, (a) the fragment code insertion offset
equals the non-fragment text size rounded up to 256 when the non-fragment
image has no fragment-entry placeholder symbol, and equals that placeholder's
value when it has exactly one; (b) every non-fragment symbol at or after the
fragment-entry symbol gets its section index cleared to `InvalidValue`, and
symbols before it are untouched; (c) every fragment text symbol *at or after
the fragment-entry symbol in the fragment symbol table* is re-emitted against
the merged section with
`value = insertionOffset + (originalFragmentValue - fragmentEntrySymbolValue)`
(in `size_t` arithmetic, equal to the plain sum-difference whenever it does
not wrap) and its original size; fragment symbols before the entry symbol are
not re-emitted. -/
theorem mergeElf_machineCode_c4 (inp : MergeInput) :
    ((∀ s ∈ inp.nonFragmentSymbols, s.symName ≠ fragmentIsaSymbolName) →
      (mergeElfBinary inp).isaOffset = pow2Align inp.nonFragmentTextSize 256) ∧
    (∀ (nfPre : List ElfSymbol) (nfEntry : ElfSymbol) (nfPost : List ElfSymbol),
      inp.nonFragmentSymbols = nfPre ++ nfEntry :: nfPost →
      nfEntry.symName = fragmentIsaSymbolName →
      (∀ s ∈ nfPre, s.symName ≠ fragmentIsaSymbolName) →
      (∀ s ∈ nfPost, s.symName ≠ fragmentIsaSymbolName) →
      (mergeElfBinary inp).isaOffset = nfEntry.value ∧
      (mergeElfBinary inp).nonFragmentSymbolsAfter =
        nfPre ++ { nfEntry with secIdx := invalidSecIdx } ::
          nfPost.map (fun s => { s with secIdx := invalidSecIdx })) ∧
    (∀ (fPre : List ElfSymbol) (fEntry : ElfSymbol) (fPost : List ElfSymbol),
      inp.fragmentSymbols = fPre ++ fEntry :: fPost →
      fEntry.symName = fragmentIsaSymbolName →
      (∀ s ∈ fPre, s.symName ≠ fragmentIsaSymbolName) →
      (∀ s ∈ fPost, s.symName ≠ fragmentIsaSymbolName) →
      (mergeElfBinary inp).fragmentWrites =
        ⟨fEntry.symName, inp.nonFragmentSecIdx,
          mergedSymbolValue (mergeElfBinary inp).isaOffset fEntry.value fEntry.value,
          fEntry.size⟩ ::
          fPost.map (fun s =>
            ⟨s.symName, inp.nonFragmentSecIdx,
              mergedSymbolValue (mergeElfBinary inp).isaOffset s.value fEntry.value,
              s.size⟩)) ∧
    (∀ off v e : Nat, e ≤ v → e < twoPow64 → off + (v - e) < twoPow64 →
      mergedSymbolValue off v e = off + (v - e)) := by
  refine ⟨?_, ?_, ?_, mergedSymbolValue_no_wrap⟩
  · intro h
    rw [mergeElfBinary_isaOffset, invalidateSymbols_no_entry _ h]
  · intro nfPre nfEntry nfPost heq hname hpre hpost
    constructor
    · rw [mergeElfBinary_isaOffset, heq,
        invalidateSymbols_split nfPre nfEntry nfPost hpre hname hpost]
    · rw [mergeElfBinary_nonFragmentSymbolsAfter, heq,
        invalidateSymbols_split nfPre nfEntry nfPost hpre hname hpost]
  · intro fPre fEntry fPost heq hname hpre hpost
    rw [mergeElfBinary_fragmentWrites, heq,
      emitFragmentSymbols_split _ _ fPre fEntry fPost hpre hname hpost]

/-- C4 witness: a merge whose non-fragment image holds a placeholder entry
symbol at offset 256 and whose fragment image holds the entry symbol at 64
followed by one more symbol at 80; the placeholder's value becomes the
insertion offset, the placeholder and later non-fragment symbols are
invalidated, and both fragment symbols are re-emitted at 256 and 272. -/
theorem mergeElf_machineCode_c4_witness :
    (mergeElfBinary ⟨512, 2,
        [⟨"_amdgpu_vs_main", 1, 0, 32⟩, ⟨"_amdgpu_ps_main", 1, 256, 16⟩],
        [⟨"_amdgpu_ps_main", 1, 64, 16⟩, ⟨"ps_extra", 1, 80, 4⟩]⟩).isaOffset = 256 ∧
    (mergeElfBinary ⟨512, 2,
        [⟨"_amdgpu_vs_main", 1, 0, 32⟩, ⟨"_amdgpu_ps_main", 1, 256, 16⟩],
        [⟨"_amdgpu_ps_main", 1, 64, 16⟩, ⟨"ps_extra", 1, 80, 4⟩]⟩).nonFragmentSymbolsAfter =
      [⟨"_amdgpu_vs_main", 1, 0, 32⟩, ⟨"_amdgpu_ps_main", invalidSecIdx, 256, 16⟩] ∧
    (mergeElfBinary ⟨512, 2,
        [⟨"_amdgpu_vs_main", 1, 0, 32⟩, ⟨"_amdgpu_ps_main", 1, 256, 16⟩],
        [⟨"_amdgpu_ps_main", 1, 64, 16⟩, ⟨"ps_extra", 1, 80, 4⟩]⟩).fragmentWrites =
      [⟨"_amdgpu_ps_main", 2, mergedSymbolValue 256 64 64, 16⟩,
       ⟨"ps_extra", 2, mergedSymbolValue 256 80 64, 4⟩] ∧
    mergedSymbolValue 256 80 64 = 272 := by
  have h := mergeElf_machineCode_c4 ⟨512, 2,
    [⟨"_amdgpu_vs_main", 1, 0, 32⟩, ⟨"_amdgpu_ps_main", 1, 256, 16⟩],
    [⟨"_amdgpu_ps_main", 1, 64, 16⟩, ⟨"ps_extra", 1, 80, 4⟩]⟩
  refine ⟨?_, ?_, ?_, ?_⟩
  · exact (h.2.1 [⟨"_amdgpu_vs_main", 1, 0, 32⟩] ⟨"_amdgpu_ps_main", 1, 256, 16⟩ []
      rfl rfl (by decide) (by decide)).1
  · exact (h.2.1 [⟨"_amdgpu_vs_main", 1, 0, 32⟩] ⟨"_amdgpu_ps_main", 1, 256, 16⟩ []
      rfl rfl (by decide) (by decide)).2
  · exact h.2.2.1 [] ⟨"_amdgpu_ps_main", 1, 64, 16⟩ [⟨"ps_extra", 1, 80, 4⟩]
      rfl rfl (by decide) (by decide)
  · exact (h.2.2.2 256 80 64 (by norm_num) (by norm_num [twoPow64])
      (by norm_num [twoPow64])).trans (by norm_num)

/-- C5 counterexample: on a fragment image lacking the fragment-main-entry
symbol, `MergeElfBinary` still produces an output binary (it has no error
result at all), contradicting the claim that the merge fails with
`CorruptArtifact` and produces no output. -/
theorem mergeElf_missingEntry_c5_counterexample :
    (mergeElfBinary ⟨512, 2, [], [⟨"ps_data", 1, 0, 4⟩]⟩).textMerged = false ∧
    (mergeElfBinary ⟨512, 2, [], [⟨"ps_data", 1, 0, 4⟩]⟩).fragmentWrites = [] ∧
    (mergeElfBinary ⟨512, 2, [], [⟨"ps_data", 1, 0, 4⟩]⟩).outputWritten = true := by
  decide

/-- C5 (amended): when the fragment image contains no fragment-entry symbol,
`MergeElfBinary` does not fail — the source function returns `void` and has no
error path — it performs no text-section merge and no fragment symbol
re-emission, and still serializes an output binary. -/
theorem mergeElf_missingEntry_noFailure_c5 (inp : MergeInput)
    (h : ∀ s ∈ inp.fragmentSymbols, s.symName ≠ fragmentIsaSymbolName) :
    (mergeElfBinary inp).outputWritten = true ∧
    (mergeElfBinary inp).textMerged = false ∧
    (mergeElfBinary inp).fragmentWrites = [] := by
  refine ⟨rfl, ?_, ?_⟩
  · rw [mergeElfBinary_textMerged, List.any_eq_false]
    intro s hs
    simpa using h s hs
  · rw [mergeElfBinary_fragmentWrites]
    exact emitFragmentSymbols_none _ _ _ h

/-- C5 witness: a concrete merge whose fragment image has no entry symbol. -/
theorem mergeElf_missingEntry_noFailure_c5_witness :
    (mergeElfBinary ⟨1024, 3, [], [⟨"ps_other", 1, 8, 4⟩]⟩).outputWritten = true ∧
    (mergeElfBinary ⟨1024, 3, [], [⟨"ps_other", 1, 8, 4⟩]⟩).textMerged = false ∧
    (mergeElfBinary ⟨1024, 3, [], [⟨"ps_other", 1, 8, 4⟩]⟩).fragmentWrites = [] :=
  mergeElf_missingEntry_noFailure_c5 _ (by decide)

/-- C6: `GenerateHashForCompileOptions` hashes the sorted, deduplicated set of
effecting options (every option after the first, with its leading dash
skipped, dropped when it starts with a denylist entry), so (i) any two option
lists whose tails contain the same option strings — regardless of order and
duplication, and with any first element, which is never hashed — produce the
same hash, and (ii) inserting an option whose name starts with a denylist
entry anywhere in the tail (equivalently, removing or modifying such options)
leaves the hash unchanged, for every hash function of the hasher's input
stream. -/
theorem optionHash_canonical_c6 {α : Type} (h : String → α) :
    (∀ l1 l2 : List String, (∀ s, s ∈ l1.drop 1 ↔ s ∈ l2.drop 1) →
      generateHashForCompileOptions h l1 = generateHashForCompileOptions h l2) ∧
    (∀ (first x : String) (pre post : List String),
      isIgnoredOption (x.drop 1) = true →
      generateHashForCompileOptions h (first :: (pre ++ x :: post)) =
        generateHashForCompileOptions h (first :: (pre ++ post))) := by
  have hset : ∀ l1 l2 : List String, (∀ s, s ∈ l1.drop 1 ↔ s ∈ l2.drop 1) →
      effectingOptions l1 = effectingOptions l2 := by
    intro l1 l2 hmem
    apply Finset.ext
    intro a
    simp only [effectingOptions, List.mem_toFinset, List.mem_filter,
      List.mem_map]
    constructor
    · rintro ⟨⟨x, hx, rfl⟩, hp⟩
      exact ⟨⟨x, (hmem x).1 hx, rfl⟩, hp⟩
    · rintro ⟨⟨x, hx, rfl⟩, hp⟩
      exact ⟨⟨x, (hmem x).2 hx, rfl⟩, hp⟩
  constructor
  · intro l1 l2 hmem
    unfold generateHashForCompileOptions optionHashStream
    rw [hset l1 l2 hmem]
  · intro first x pre post hx
    unfold generateHashForCompileOptions optionHashStream
    have : effectingOptions (first :: (pre ++ x :: post)) =
        effectingOptions (first :: (pre ++ post)) := by
      unfold effectingOptions
      simp only [List.drop_succ_cons, List.drop_zero, List.map_append,
        List.map_cons, List.filter_append, List.filter_cons, hx]
      simp
    rw [this]

/-- C6 witness: reordering and duplicating tail options, and inserting a
denylisted `-shader-cache-mode=2` option, do not change the hash. -/
theorem optionHash_canonical_c6_witness :
    generateHashForCompileOptions id ["amdvlk", "-bbb", "-aaa", "-bbb"] =
      generateHashForCompileOptions id ["amdvlk", "-aaa", "-bbb"] ∧
    generateHashForCompileOptions id
        ["amdvlk", "-aaa", "-shader-cache-mode=2", "-bbb"] =
      generateHashForCompileOptions id ["amdvlk", "-aaa", "-bbb"] := by
  constructor
  · refine (optionHash_canonical_c6 id).1 _ _ ?_
    intro s
    simp only [List.drop_succ_cons, List.drop_zero, List.mem_cons,
      List.not_mem_nil]
    tauto
  · exact (optionHash_canonical_c6 id).2 "amdvlk" "-shader-cache-mode=2"
      ["-aaa"] ["-bbb"] (by decide)

/-- C8: with an application pipeline cache supplied and the
force-internal-on-disk mode unset, `LookUpShaderCaches` queries the app cache
first (the internal cache only after it), and on an app-cache miss that left a
claimed entry handle combined with an internal-cache hit whose retrieval
succeeds, the retrieved binary is inserted back into the app cache's claimed
entry and the lookup returns `Ready`. -/
theorem lookUpShaderCaches_twoTier_c8 :
    (∀ app internal : CacheSim,
      (lookUpShaderCaches (some app) internal false).queried = [CacheId.app] ∨
      (lookUpShaderCaches (some app) internal false).queried =
        [CacheId.app, CacheId.internal]) ∧
    (∀ (app internal : CacheSim) (h0 : Nat),
      app.findState = ShaderEntryState.compiling →
      app.findEntry = some h0 →
      internal.findState = ShaderEntryState.ready →
      internal.retrieveResult = ResultCode.success →
      lookUpShaderCaches (some app) internal false =
        ⟨ShaderEntryState.ready, some internal.retrieveElf,
          [CacheId.app, CacheId.internal], some internal.retrieveElf⟩) := by
  constructor
  · intro app internal
    unfold lookUpShaderCaches
    by_cases h1 : app.findState = ShaderEntryState.ready
    · by_cases h2 : app.retrieveResult = ResultCode.errorUnknown
      · by_cases h3 : internal.findState = ShaderEntryState.ready
        · by_cases h4 : internal.retrieveResult = ResultCode.errorUnknown
          · right; simp [lookupCachesLoop, h1, h2, h3, h4]
          · right; simp [lookupCachesLoop, h1, h2, h3, h4]
        · right; simp [lookupCachesLoop, h1, h2, h3]
      · left; simp [lookupCachesLoop, h1, h2]
    · by_cases h3 : internal.findState = ShaderEntryState.ready
      · by_cases h4 : internal.retrieveResult = ResultCode.errorUnknown
        · right; simp [lookupCachesLoop, h1, h3, h4]
        · right; simp [lookupCachesLoop, h1, h3, h4]
      · right; simp [lookupCachesLoop, h1, h3]
  · intro app internal h0 happ hentry hint hres
    have hne : internal.retrieveResult ≠ ResultCode.errorUnknown := by
      rw [hres]; intro hc; cases hc
    unfold lookUpShaderCaches
    simp [lookupCachesLoop, happ, hentry, hint, hne]

/-- C8 witness: app cache misses with claimed handle 7, internal cache is
ready with binary 42 and successful retrieval; the result is `Ready` with 42
written back into the app cache's entry. -/
theorem lookUpShaderCaches_twoTier_c8_witness :
    lookUpShaderCaches
        (some ⟨ShaderEntryState.compiling, some 7, ResultCode.success, 0⟩)
        ⟨ShaderEntryState.ready, some 9, ResultCode.success, 42⟩ false =
      ⟨ShaderEntryState.ready, some 42, [CacheId.app, CacheId.internal],
        some 42⟩ :=
  lookUpShaderCaches_twoTier_c8.2 _ _ 7 rfl rfl rfl rfl

/-- C10 counterexample: a `BuildShaderModule` call whose build info has a null
output allocator but whose input binary is unrecognized returns
`ErrorInvalidShader`, not `ErrorInvalidPointer`, so the unconditional claim is
false. -/
theorem nullAllocator_c10_counterexample :
    (buildShaderModule ShaderBinKind.unknown true false ShaderEntryState.new
        none ResultCode.success ResultCode.success none).result =
      ResultCode.errorInvalidShader := by decide

/-- C10 (amended): with a null `pfnOutputAlloc` callback, none of
`BuildGraphicsPipeline`, `BuildComputePipeline`, `BuildShaderModule` ever
returns `Success` or produces an artifact; whenever the running result is
`Success` when the output-allocation stage is reached, the call returns
`ErrorInvalidPointer` (the graphics path still performs its output `memcpy`,
with a null destination); `BuildShaderModule` additionally resets the cache
entry it holds — this includes a call whose SPIR-V verification failed but
whose `Unsupported` result the `enableOpt` cache-retrieve phase overwrote
with `Success` (last conjunct), which therefore also ends in
`ErrorInvalidPointer`. -/
theorem nullAllocator_invalidPointer_c10 :
    (∀ (v cr : ResultCode) (ls : ShaderEntryState),
      (buildGraphicsPipeline v ls cr none).result ≠ ResultCode.success) ∧
    (∀ ls : ShaderEntryState,
      buildGraphicsPipeline ResultCode.success ls ResultCode.success none =
        ⟨ResultCode.errorInvalidPointer, some none,
          decide (ls = ShaderEntryState.compiling), false⟩) ∧
    (∀ (v cr : ResultCode) (ls : ShaderEntryState),
      (buildComputePipeline v ls cr none).result ≠ ResultCode.success) ∧
    (∀ ls : ShaderEntryState,
      (buildComputePipeline ResultCode.success ls ResultCode.success none).result =
        ResultCode.errorInvalidPointer) ∧
    (∀ (bk : ShaderBinKind) (ok eo : Bool) (ces : ShaderEntryState)
        (he : Option Nat) (rr pr : ResultCode),
      (buildShaderModule bk ok eo ces he rr pr none).artifactProduced = false) ∧
    (∀ hEntry : Nat,
      buildShaderModule ShaderBinKind.spirv true true ShaderEntryState.compiling
          (some hEntry) ResultCode.success ResultCode.success none =
        ⟨ResultCode.errorInvalidPointer, false, false, true⟩) ∧
    (∀ hEntry : Nat,
      buildShaderModule ShaderBinKind.spirv false true ShaderEntryState.ready
          (some hEntry) ResultCode.success ResultCode.success none =
        ⟨ResultCode.errorInvalidPointer, false, false, true⟩) := by
  have key : ∀ r1 : ResultCode,
      (if r1 = ResultCode.success then ResultCode.errorInvalidPointer else r1) ≠
        ResultCode.success := by
    intro r1
    by_cases h : r1 = ResultCode.success <;> simp [h]
  refine ⟨?_, ?_, ?_, ?_, ?_, ?_, ?_⟩
  · intro v cr ls
    simp only [buildGraphicsPipeline]
    by_cases h : (if ls = ShaderEntryState.compiling then cr else v) =
        ResultCode.success <;> simp [h]
  · intro ls
    cases ls <;> rfl
  · intro v cr ls
    simp only [buildComputePipeline]
    by_cases h : (if ls = ShaderEntryState.compiling then cr else v) =
        ResultCode.success <;> simp [h]
  · intro ls
    cases ls <;> rfl
  · intro bk ok eo ces he rr pr
    simp only [buildShaderModule]
    exact decide_eq_false (key _)
  · intro hEntry
    rfl
  · intro hEntry
    rfl

/-- C10 witness: a compute build with successful earlier stages and a null
allocator returns `ErrorInvalidPointer`; a shader-module build with
successful earlier stages, a claimed entry and a null allocator returns
`ErrorInvalidPointer` and resets its entry; and so does one whose failed
verification was overwritten by a `Ready`-entry retrieval. -/
theorem nullAllocator_invalidPointer_c10_witness :
    (buildComputePipeline ResultCode.success ShaderEntryState.compiling
        ResultCode.success none).result = ResultCode.errorInvalidPointer ∧
    buildShaderModule ShaderBinKind.spirv true true ShaderEntryState.compiling
        (some 5) ResultCode.success ResultCode.success none =
      ⟨ResultCode.errorInvalidPointer, false, false, true⟩ ∧
    buildShaderModule ShaderBinKind.spirv false true ShaderEntryState.ready
        (some 5) ResultCode.success ResultCode.success none =
      ⟨ResultCode.errorInvalidPointer, false, false, true⟩ :=
  ⟨nullAllocator_invalidPointer_c10.2.2.2.1 ShaderEntryState.compiling,
   nullAllocator_invalidPointer_c10.2.2.2.2.2.1 5,
   nullAllocator_invalidPointer_c10.2.2.2.2.2.2 5⟩

end Llpc
